import Mathlib

/-!
Verification development for the galaxy simulator.

The simulator's state and algorithms are embedded shallowly:
JavaScript numbers become real numbers, `Math.random()` draws become an
explicit stream `σ : ℕ → ℝ` consumed in program order, `Date.now()`
becomes an explicit parameter `now : ℝ`, and the React component state
becomes an explicit `CanvasState` record.  Every definition is a direct
transcription of the corresponding source function.
-/

noncomputable section

namespace GalaxySim

/-- A body of the simulation; mirrors the `Star` interface of the source
(`id`, position `x y`, velocity `vx vy`, `mass`, optional `imageIndex`). -/
structure Star where
  id : ℝ
  x : ℝ
  y : ℝ
  vx : ℝ
  vy : ℝ
  mass : ℝ
  imageIndex : Option ℤ

/-- The fixed softening constant of the force solver (`softeningFactor = 5`). -/
def softeningFactor : ℝ := 5

/-- Softened squared distance between two bodies:
`distSq = dx*dx + dy*dy + softeningFactor*softeningFactor`. -/
def pairDistSq (star otherStar : Star) : ℝ :=
  (otherStar.x - star.x) * (otherStar.x - star.x) +
    (otherStar.y - star.y) * (otherStar.y - star.y) +
    softeningFactor * softeningFactor

/-- Scalar force magnitude between two bodies:
`force = (G * star.mass * otherStar.mass) / distSq`. -/
def pairForceMag (G : ℝ) (star otherStar : Star) : ℝ :=
  G * star.mass * otherStar.mass / pairDistSq star otherStar

/-- Force vector a single other body exerts on `star`:
`(force * (dx / dist), force * (dy / dist))` with `dist = sqrt distSq`. -/
def pairForceContrib (G : ℝ) (star otherStar : Star) : ℝ × ℝ :=
  let dx := otherStar.x - star.x
  let dy := otherStar.y - star.y
  let dist := Real.sqrt (pairDistSq star otherStar)
  (pairForceMag G star otherStar * (dx / dist), pairForceMag G star otherStar * (dy / dist))

/-- Net force on `star` from all bodies of the snapshot, skipping the body
whose `id` equals `star.id`, accumulated exactly like the source's
`currentStars.forEach` loop. -/
def netForce (G : ℝ) (currentStars : List Star) (star : Star) : ℝ × ℝ :=
  currentStars.foldl
    (fun acc otherStar =>
      if star.id = otherStar.id then acc
      else (acc.1 + (pairForceContrib G star otherStar).1,
            acc.2 + (pairForceContrib G star otherStar).2))
    (0, 0)

/-- Semi-implicit Euler update of one body against the snapshot
`currentStars`: `vx = star.vx + (netForceX / star.mass) * dt`, then
`x = star.x + vx * dt` (and likewise for `y`). -/
def updateStar (G dt : ℝ) (currentStars : List Star) (star : Star) : Star :=
  let f := netForce G currentStars star
  let vx := star.vx + (f.1 / star.mass) * dt
  let vy := star.vy + (f.2 / star.mass) * dt
  let x := star.x + vx * dt
  let y := star.y + vy * dt
  { star with x := x, y := y, vx := vx, vy := vy }

/-- One physics step of the `draw` loop: when not paused, map every body of
the current snapshot through `updateStar` computed against that same old
snapshot; when paused, leave the store untouched. -/
def stepStars (G dt : ℝ) (isPaused : Bool) (stars : List Star) : List Star :=
  if isPaused then stars else stars.map (updateStar G dt stars)

lemma netForce_foldl_eq (G : ℝ) (star : Star) (l : List Star) (a b : ℝ) :
    l.foldl
      (fun acc otherStar =>
        if star.id = otherStar.id then acc
        else (acc.1 + (pairForceContrib G star otherStar).1,
              acc.2 + (pairForceContrib G star otherStar).2))
      (a, b)
    = (a + (l.map fun o => if star.id = o.id then 0 else (pairForceContrib G star o).1).sum,
       b + (l.map fun o => if star.id = o.id then 0 else (pairForceContrib G star o).2).sum) := by
  induction l generalizing a b with
  | nil => simp
  | cons o t ih =>
    by_cases h : star.id = o.id
    · simp only [List.foldl_cons, List.map_cons, List.sum_cons, if_pos h, ih]
      simp
    · simp only [List.foldl_cons, List.map_cons, List.sum_cons, if_neg h, ih]
      simp [add_assoc]

lemma netForce_eq_sum (G : ℝ) (l : List Star) (star : Star) :
    netForce G l star
      = ((l.map fun o => if star.id = o.id then 0 else (pairForceContrib G star o).1).sum,
         (l.map fun o => if star.id = o.id then 0 else (pairForceContrib G star o).2).sum) := by
  unfold netForce
  rw [netForce_foldl_eq]
  simp

lemma netForce_perm (G : ℝ) {l l' : List Star} (h : l.Perm l') (star : Star) :
    netForce G l star = netForce G l' star := by
  rw [netForce_eq_sum, netForce_eq_sum]
  exact Prod.ext ((h.map _).sum_eq) ((h.map _).sum_eq)

lemma updateStar_perm (G dt : ℝ) {l l' : List Star} (h : l.Perm l') (s : Star) :
    updateStar G dt l s = updateStar G dt l' s := by
  unfold updateStar
  rw [netForce_perm G h]

lemma stepStars_eq_map (G dt : ℝ) (l : List Star) :
    stepStars G dt false l = l.map (updateStar G dt l) := rfl

/-- C1: one unpaused physics step maps every body of the old snapshot through
the semi-implicit Euler rule (velocity updated from the net force computed
against the whole old snapshot, then position updated using the new
velocity), and permuting the body list permutes the resulting list while
changing no body's new position or velocity. -/
theorem step_semiImplicit_euler_snapshot_perm (G dt : ℝ) (l l' : List Star) (h : l.Perm l') :
    stepStars G dt false l = l.map (updateStar G dt l) ∧
    (∀ s : Star, updateStar G dt l s =
      { s with
        x := s.x + (s.vx + ((netForce G l s).1 / s.mass) * dt) * dt,
        y := s.y + (s.vy + ((netForce G l s).2 / s.mass) * dt) * dt,
        vx := s.vx + ((netForce G l s).1 / s.mass) * dt,
        vy := s.vy + ((netForce G l s).2 / s.mass) * dt }) ∧
    (∀ s : Star, updateStar G dt l s = updateStar G dt l' s) ∧
    (stepStars G dt false l).Perm (stepStars G dt false l') := by
  refine ⟨rfl, fun s => rfl, fun s => updateStar_perm G dt h s, ?_⟩
  rw [stepStars_eq_map, stepStars_eq_map]
  have h2 : l'.map (updateStar G dt l) = l'.map (updateStar G dt l') :=
    List.map_congr_left fun s _ => updateStar_perm G dt h s
  exact h2 ▸ h.map (updateStar G dt l)

/-- C1 witness: a concrete two-body swap instance of the permutation claim. -/
theorem step_semiImplicit_euler_snapshot_perm_witness :
    (stepStars 1 1 false [⟨1, 0, 0, 0, 0, 1, none⟩, ⟨2, 3, 4, 0, 0, 1, none⟩]).Perm
      (stepStars 1 1 false [⟨2, 3, 4, 0, 0, 1, none⟩, ⟨1, 0, 0, 0, 0, 1, none⟩]) :=
  (step_semiImplicit_euler_snapshot_perm 1 1 _ _
    (List.Perm.swap (⟨2, 3, 4, 0, 0, 1, none⟩ : Star) ⟨1, 0, 0, 0, 0, 1, none⟩ [])).2.2.2

/-- C2: the softened squared distance of any pair is at least
`softeningFactor * softeningFactor` (hence positive, so the division never
divides by zero), and for nonnegative `G` and positive masses the force
magnitude is bounded by `G * m1 * m2 / s^2`. -/
theorem force_softening_bounded (G : ℝ) (a b : Star)
    (hG : 0 ≤ G) (ha : 0 < a.mass) (hb : 0 < b.mass) :
    softeningFactor * softeningFactor ≤ pairDistSq a b ∧
    0 < pairDistSq a b ∧
    pairForceMag G a b ≤ G * a.mass * b.mass / (softeningFactor * softeningFactor) := by
  have h1 : softeningFactor * softeningFactor ≤ pairDistSq a b := by
    unfold pairDistSq
    nlinarith [mul_self_nonneg (b.x - a.x), mul_self_nonneg (b.y - a.y)]
  have hs : (0 : ℝ) < softeningFactor * softeningFactor := by norm_num [softeningFactor]
  have h2 : 0 < pairDistSq a b := lt_of_lt_of_le hs h1
  refine ⟨h1, h2, ?_⟩
  unfold pairForceMag
  gcongr

/-- C2 witness: concrete coincident unit-mass pair under `G = 1`. -/
theorem force_softening_bounded_witness :
    softeningFactor * softeningFactor ≤ pairDistSq ⟨1, 0, 0, 0, 0, 1, none⟩ ⟨2, 0, 0, 0, 0, 1, none⟩ ∧
    0 < pairDistSq ⟨1, 0, 0, 0, 0, 1, none⟩ ⟨2, 0, 0, 0, 0, 1, none⟩ ∧
    pairForceMag 1 ⟨1, 0, 0, 0, 0, 1, none⟩ ⟨2, 0, 0, 0, 0, 1, none⟩ ≤
      1 * (1 : ℝ) * 1 / (softeningFactor * softeningFactor) :=
  force_softening_bounded 1 ⟨1, 0, 0, 0, 0, 1, none⟩ ⟨2, 0, 0, 0, 0, 1, none⟩
    (by norm_num) (by norm_num) (by norm_num)

lemma sum_map_zero (l : List Star) : (l.map fun _ => (0 : ℝ)).sum = 0 := by
  induction l with
  | nil => simp
  | cons a t ih => simp [ih]

lemma map_self (f : Star → Star) (hf : ∀ s, f s = s) : ∀ l : List Star, l.map f = l := by
  intro l
  induction l with
  | nil => rfl
  | cons a t ih => simp [hf, ih]

lemma netForce_zero (l : List Star) (s : Star) : netForce 0 l s = (0, 0) := by
  rw [netForce_eq_sum]
  have hz : ∀ o : Star, pairForceContrib 0 s o = ((0 : ℝ), (0 : ℝ)) := by
    intro o
    simp [pairForceContrib, pairForceMag]
  simp [hz, sum_map_zero]

lemma stepStars_gzero (dt : ℝ) (l : List Star) :
    stepStars 0 dt false l
      = l.map fun s => { s with x := s.x + s.vx * dt, y := s.y + s.vy * dt } := by
  rw [stepStars_eq_map]
  refine List.map_congr_left fun s _ => ?_
  unfold updateStar
  rw [netForce_zero]
  rcases s with ⟨i, x, y, vx, vy, m, ii⟩
  simp

/-- C5: with `G = 0`, `n` physics steps leave every body's velocity unchanged
and move its position linearly: `x = x0 + vx * (n * dt)` componentwise. -/
theorem g_zero_linear_motion (dt : ℝ) (n : ℕ) (l : List Star) :
    (stepStars 0 dt false)^[n] l
      = l.map fun s =>
          { s with x := s.x + s.vx * ((n : ℝ) * dt), y := s.y + s.vy * ((n : ℝ) * dt) } := by
  induction n generalizing l with
  | zero =>
    have h : ∀ s : Star,
        ({ s with x := s.x + s.vx * (((0 : ℕ) : ℝ) * dt),
                  y := s.y + s.vy * (((0 : ℕ) : ℝ) * dt) } : Star) = s := by
      intro s
      cases s
      simp
    rw [Function.iterate_zero_apply]
    exact (map_self _ h l).symm
  | succ n ih =>
    rw [Function.iterate_succ_apply, stepStars_gzero, ih, List.map_map]
    refine List.map_congr_left fun s _ => ?_
    cases s
    simp [Function.comp]
    constructor <;> ring

/-- C10: a paused step changes nothing at all; an unpaused step preserves the
store's length and every body's `id`, `mass` and `imageIndex` — only position
and velocity are rewritten. -/
theorem step_preserves_frame (G dt : ℝ) (l : List Star) :
    stepStars G dt true l = l ∧
    (stepStars G dt false l).length = l.length ∧
    stepStars G dt false l = l.map (updateStar G dt l) ∧
    ∀ s : Star,
      (updateStar G dt l s).id = s.id ∧
      (updateStar G dt l s).mass = s.mass ∧
      (updateStar G dt l s).imageIndex = s.imageIndex :=
  ⟨rfl, by simp [stepStars], rfl, fun s => ⟨rfl, rfl, rfl⟩⟩

/-- The mutable component state of the canvas: the body store and the
injection controller's flags (`isDragging`, `lastMousePos`, `startDragPos`)
plus the simulation's `isPaused` flag. -/
structure CanvasState where
  stars : List Star
  isDragging : Bool
  lastMousePos : Option (ℝ × ℝ)
  startDragPos : Option (ℝ × ℝ)
  isPaused : Bool

/-- Mouse press: record the point as both last and start position and enter
the dragging state; no body is created. -/
def handleMouseDown (x y : ℝ) (s : CanvasState) : CanvasState :=
  { s with isDragging := true, lastMousePos := some (x, y), startDragPos := some (x, y) }

/-- Mouse move: a no-op unless dragging with a recorded last position; then,
when the Euclidean distance from the last position exceeds 15, append one
body at the current point with tangential velocity
`(-dy / dist * dragSpeed * dist, dx / dist * dragSpeed * dist)` for
`dragSpeed = 0.1` and advance `lastMousePos` to the current point. -/
def handleMouseMove (x y now rand : ℝ) (imagesLoaded : Bool) (imgLen : ℕ)
    (defaultMass : ℝ) (s : CanvasState) : CanvasState :=
  match s.isDragging, s.lastMousePos with
  | true, some lp =>
    let dx := x - lp.1
    let dy := y - lp.2
    let dist := Real.sqrt (dx * dx + dy * dy)
    if dist > 15 then
      let dragSpeed : ℝ := 0.1
      let tangentialVx := -dy / dist * dragSpeed * dist
      let tangentialVy := dx / dist * dragSpeed * dist
      let randomImageIndex : Option ℤ :=
        if imagesLoaded then some ⌊rand * (imgLen : ℝ)⌋ else none
      { s with
        stars := s.stars ++
          [{ id := now, x := x, y := y, vx := tangentialVx, vy := tangentialVy,
             mass := defaultMass, imageIndex := randomImageIndex }],
        lastMousePos := some (x, y) }
    else s
  | _, _ => s

/-- Mouse release: a no-op unless dragging with a recorded start position;
when the squared displacement from the start position is below the click
threshold `25`, append one body at the release point with zero velocity;
either way leave the dragging state and clear the tracked points. -/
def handleMouseUp (x y now rand : ℝ) (imagesLoaded : Bool) (imgLen : ℕ)
    (defaultMass : ℝ) (s : CanvasState) : CanvasState :=
  match s.isDragging, s.startDragPos with
  | true, some sp =>
    let dx := x - sp.1
    let dy := y - sp.2
    let distSq := dx * dx + dy * dy
    let clickThresholdSq : ℝ := 25
    if distSq < clickThresholdSq then
      let randomImageIndex : Option ℤ :=
        if imagesLoaded then some ⌊rand * (imgLen : ℝ)⌋ else none
      { s with
        stars := s.stars ++
          [{ id := now, x := x, y := y, vx := 0, vy := 0,
             mass := defaultMass, imageIndex := randomImageIndex }],
        isDragging := false, lastMousePos := none, startDragPos := none }
    else
      { s with isDragging := false, lastMousePos := none, startDragPos := none }
  | _, _ => s

/-- Mouse leave: cancel an in-progress drag without creating any body. -/
def handleMouseLeave (s : CanvasState) : CanvasState :=
  if s.isDragging then { s with isDragging := false, lastMousePos := none } else s

/-- Toggle the pause flag. -/
def internalTogglePause (s : CanvasState) : CanvasState :=
  { s with isPaused := !s.isPaused }

/-- Clear the body store; if the simulation was paused, also resume it. -/
def internalClearStars (s : CanvasState) : CanvasState :=
  let s1 := { s with stars := ([] : List Star) }
  if s1.isPaused then { s1 with isPaused := false } else s1

/-- Append a batch of bodies to the store. -/
def internalAddStars (newStars : List Star) (s : CanvasState) : CanvasState :=
  { s with stars := s.stars ++ newStars }

/-- C8: after `clearStars`, from any state, the body store is empty and the
simulation is running (not paused). -/
theorem clear_empties_and_resumes (s : CanvasState) :
    (internalClearStars s).stars = [] ∧ (internalClearStars s).isPaused = false := by
  cases hp : s.isPaused <;> simp [internalClearStars, hp]

/-- C6: a press immediately followed by a release appends exactly one body
with zero velocity at the release point when the squared displacement is
below 25, appends nothing when it is 25 or more, and leaves the dragging
state either way; the press itself creates no body. -/
theorem click_gesture_appends_one (sx sy ex ey now rand mass : ℝ)
    (imagesLoaded : Bool) (imgLen : ℕ) (st : CanvasState) :
    (handleMouseDown sx sy st).stars = st.stars ∧
    (handleMouseUp ex ey now rand imagesLoaded imgLen mass (handleMouseDown sx sy st)).isDragging
      = false ∧
    ((ex - sx) * (ex - sx) + (ey - sy) * (ey - sy) < 25 →
      (handleMouseUp ex ey now rand imagesLoaded imgLen mass (handleMouseDown sx sy st)).stars
        = st.stars ++
            [{ id := now, x := ex, y := ey, vx := 0, vy := 0, mass := mass,
               imageIndex := if imagesLoaded then some ⌊rand * (imgLen : ℝ)⌋ else none }]) ∧
    (25 ≤ (ex - sx) * (ex - sx) + (ey - sy) * (ey - sy) →
      (handleMouseUp ex ey now rand imagesLoaded imgLen mass (handleMouseDown sx sy st)).stars
        = st.stars) := by
  refine ⟨rfl, ?_, ?_, ?_⟩
  · by_cases h : (ex - sx) * (ex - sx) + (ey - sy) * (ey - sy) < 25
    · simp [handleMouseUp, handleMouseDown, h]
    · simp [handleMouseUp, handleMouseDown, h]
  · intro h
    simp [handleMouseUp, handleMouseDown, h]
  · intro h
    simp [handleMouseUp, handleMouseDown, not_lt.mpr h]

/-- C6 witness: a concrete click (displacement 1 < 5) on an empty store
appends exactly the zero-velocity body at the release point. -/
theorem click_gesture_appends_one_witness :
    (handleMouseUp 1 0 7 0 false 0 3 (handleMouseDown 0 0 ⟨[], false, none, none, false⟩)).stars
      = [{ id := 7, x := 1, y := 0, vx := 0, vy := 0, mass := 3, imageIndex := none }] := by
  have h := (click_gesture_appends_one 0 0 1 0 7 0 3 false 0
    ⟨[], false, none, none, false⟩).2.2.1 (by norm_num)
  simpa using h

lemma handleMouseMove_spawn (x y now rand : ℝ) (imagesLoaded : Bool) (imgLen : ℕ)
    (mass : ℝ) (stars : List Star) (lp : ℝ × ℝ) (sdp : Option (ℝ × ℝ)) (paused : Bool)
    (h : 15 < Real.sqrt ((x - lp.1) * (x - lp.1) + (y - lp.2) * (y - lp.2))) :
    handleMouseMove x y now rand imagesLoaded imgLen mass ⟨stars, true, some lp, sdp, paused⟩
      = ⟨stars ++
          [{ id := now, x := x, y := y,
             vx := -(y - lp.2) / Real.sqrt ((x - lp.1) * (x - lp.1) + (y - lp.2) * (y - lp.2))
                     * 0.1 * Real.sqrt ((x - lp.1) * (x - lp.1) + (y - lp.2) * (y - lp.2)),
             vy := (x - lp.1) / Real.sqrt ((x - lp.1) * (x - lp.1) + (y - lp.2) * (y - lp.2))
                     * 0.1 * Real.sqrt ((x - lp.1) * (x - lp.1) + (y - lp.2) * (y - lp.2)),
             mass := mass,
             imageIndex := if imagesLoaded then some ⌊rand * (imgLen : ℝ)⌋ else none }],
         true, some (x, y), sdp, paused⟩ := by
  simp [handleMouseMove, h]

lemma handleMouseMove_noSpawn (x y now rand : ℝ) (imagesLoaded : Bool) (imgLen : ℕ)
    (mass : ℝ) (stars : List Star) (lp : ℝ × ℝ) (sdp : Option (ℝ × ℝ)) (paused : Bool)
    (h : Real.sqrt ((x - lp.1) * (x - lp.1) + (y - lp.2) * (y - lp.2)) ≤ 15) :
    handleMouseMove x y now rand imagesLoaded imgLen mass ⟨stars, true, some lp, sdp, paused⟩
      = ⟨stars, true, some lp, sdp, paused⟩ := by
  simp [handleMouseMove, not_lt.mpr h]

/-- C7: a move while dragging with distance from the last point above 15
appends exactly one body at the current point whose velocity is
perpendicular to the drag segment with magnitude `0.1 * dist`, and advances
the last point; with distance 15 or less it appends nothing and leaves the
last point unchanged. -/
theorem drag_move_spawn (x y now rand mass : ℝ) (imagesLoaded : Bool) (imgLen : ℕ)
    (s : CanvasState) (lp : ℝ × ℝ) (hd : s.isDragging = true) (hl : s.lastMousePos = some lp) :
    (15 < Real.sqrt ((x - lp.1) * (x - lp.1) + (y - lp.2) * (y - lp.2)) →
      (handleMouseMove x y now rand imagesLoaded imgLen mass s).stars
          = s.stars ++
              [{ id := now, x := x, y := y,
                 vx := -(y - lp.2) / Real.sqrt ((x - lp.1) * (x - lp.1) + (y - lp.2) * (y - lp.2))
                         * 0.1 * Real.sqrt ((x - lp.1) * (x - lp.1) + (y - lp.2) * (y - lp.2)),
                 vy := (x - lp.1) / Real.sqrt ((x - lp.1) * (x - lp.1) + (y - lp.2) * (y - lp.2))
                         * 0.1 * Real.sqrt ((x - lp.1) * (x - lp.1) + (y - lp.2) * (y - lp.2)),
                 mass := mass,
                 imageIndex := if imagesLoaded then some ⌊rand * (imgLen : ℝ)⌋ else none }] ∧
        (handleMouseMove x y now rand imagesLoaded imgLen mass s).lastMousePos = some (x, y) ∧
        (-(y - lp.2) / Real.sqrt ((x - lp.1) * (x - lp.1) + (y - lp.2) * (y - lp.2))
            * 0.1 * Real.sqrt ((x - lp.1) * (x - lp.1) + (y - lp.2) * (y - lp.2))) * (x - lp.1)
          + ((x - lp.1) / Real.sqrt ((x - lp.1) * (x - lp.1) + (y - lp.2) * (y - lp.2))
              * 0.1 * Real.sqrt ((x - lp.1) * (x - lp.1) + (y - lp.2) * (y - lp.2))) * (y - lp.2)
          = 0 ∧
        Real.sqrt
            ((-(y - lp.2) / Real.sqrt ((x - lp.1) * (x - lp.1) + (y - lp.2) * (y - lp.2))
                * 0.1 * Real.sqrt ((x - lp.1) * (x - lp.1) + (y - lp.2) * (y - lp.2)))
              * (-(y - lp.2) / Real.sqrt ((x - lp.1) * (x - lp.1) + (y - lp.2) * (y - lp.2))
                * 0.1 * Real.sqrt ((x - lp.1) * (x - lp.1) + (y - lp.2) * (y - lp.2)))
            + ((x - lp.1) / Real.sqrt ((x - lp.1) * (x - lp.1) + (y - lp.2) * (y - lp.2))
                * 0.1 * Real.sqrt ((x - lp.1) * (x - lp.1) + (y - lp.2) * (y - lp.2)))
              * ((x - lp.1) / Real.sqrt ((x - lp.1) * (x - lp.1) + (y - lp.2) * (y - lp.2))
                * 0.1 * Real.sqrt ((x - lp.1) * (x - lp.1) + (y - lp.2) * (y - lp.2))))
          = 0.1 * Real.sqrt ((x - lp.1) * (x - lp.1) + (y - lp.2) * (y - lp.2))) ∧
    (Real.sqrt ((x - lp.1) * (x - lp.1) + (y - lp.2) * (y - lp.2)) ≤ 15 →
      (handleMouseMove x y now rand imagesLoaded imgLen mass s).stars = s.stars ∧
      (handleMouseMove x y now rand imagesLoaded imgLen mass s).lastMousePos
        = s.lastMousePos) := by
  rcases s with ⟨stars, drag, lmp, sdp, paused⟩
  simp only at hd hl
  subst hd
  subst hl
  set d := Real.sqrt ((x - lp.1) * (x - lp.1) + (y - lp.2) * (y - lp.2)) with hdDef
  constructor
  · intro h
    have hdpos : (0 : ℝ) < d := lt_trans (by norm_num) h
    have hdne : d ≠ 0 := ne_of_gt hdpos
    rw [handleMouseMove_spawn x y now rand imagesLoaded imgLen mass stars lp sdp paused h]
    refine ⟨rfl, rfl, ?_, ?_⟩
    · field_simp
      ring
    · have hv : (-(y - lp.2) / d * 0.1 * d) * (-(y - lp.2) / d * 0.1 * d)
          + ((x - lp.1) / d * 0.1 * d) * ((x - lp.1) / d * 0.1 * d)
          = (0.1 * d) * (0.1 * d) := by
        have hd2 : d * d = (x - lp.1) * (x - lp.1) + (y - lp.2) * (y - lp.2) := by
          rw [hdDef]
          exact Real.mul_self_sqrt
            (add_nonneg (mul_self_nonneg _) (mul_self_nonneg _))
        field_simp
        nlinarith [hd2]
      rw [hv, Real.sqrt_mul_self (mul_nonneg (by norm_num) hdpos.le)]
  · intro h
    rw [handleMouseMove_noSpawn x y now rand imagesLoaded imgLen mass stars lp sdp paused h]
    exact ⟨rfl, rfl⟩

/-- C7 witness: a concrete move of distance 20 from the last point appends
exactly one body. -/
theorem drag_move_spawn_witness :
    ((handleMouseMove 20 0 7 0 false 0 3
        ⟨[], true, some ((0 : ℝ), (0 : ℝ)), some ((0 : ℝ), (0 : ℝ)), false⟩).stars).length
      = 1 := by
  have hsq : ((20 : ℝ) - 0) * (20 - 0) + (0 - 0) * (0 - 0) = 20 ^ 2 := by norm_num
  have hgt : (15 : ℝ) < Real.sqrt (((20 : ℝ) - 0) * (20 - 0) + (0 - 0) * (0 - 0)) := by
    rw [hsq, Real.sqrt_sq (by norm_num : (0 : ℝ) ≤ 20)]
    norm_num
  have h := (drag_move_spawn 20 0 7 0 3 false 0
    ⟨[], true, some (0, 0), some (0, 0), false⟩ (0, 0) rfl rfl).1 hgt
  rw [h.1]
  rfl

/-- C4: the claim that all live bodies always carry distinct ids fails in the
code: two qualifying drag moves handled with the same `Date.now()` timestamp
(here `now = 5` twice) append two distinct bodies carrying the same id. -/
theorem duplicate_id_same_timestamp :
    ∃ a b : Star,
      (handleMouseMove 40 0 5 0 false 0 1
          (handleMouseMove 20 0 5 0 false 0 1
            ⟨[], true, some ((0 : ℝ), (0 : ℝ)), some ((0 : ℝ), (0 : ℝ)), false⟩)).stars
        = [a, b] ∧ a.id = b.id ∧ a ≠ b := by
  have hc1 : (15 : ℝ) < Real.sqrt (((20 : ℝ) - 0) * (20 - 0) + (0 - 0) * (0 - 0)) := by
    rw [show ((20 : ℝ) - 0) * (20 - 0) + (0 - 0) * (0 - 0) = 20 ^ 2 by norm_num,
      Real.sqrt_sq (by norm_num : (0 : ℝ) ≤ 20)]
    norm_num
  have hc2 : (15 : ℝ) < Real.sqrt (((40 : ℝ) - 20) * (40 - 20) + (0 - 0) * (0 - 0)) := by
    rw [show ((40 : ℝ) - 20) * (40 - 20) + (0 - 0) * (0 - 0) = 20 ^ 2 by norm_num,
      Real.sqrt_sq (by norm_num : (0 : ℝ) ≤ 20)]
    norm_num
  rw [handleMouseMove_spawn 20 0 5 0 false 0 1 [] (0, 0) (some (0, 0)) false hc1]
  rw [handleMouseMove_spawn 40 0 5 0 false 0 1 _ (20, 0) (some (0, 0)) false hc2]
  refine ⟨_, _, rfl, rfl, fun hEq => ?_⟩
  have hx := congrArg Star.x hEq
  simp only at hx
  norm_num at hx

/-- Parameters of `generateSpiralGalaxyStars`, in source order. -/
structure GenParams where
  centerX : ℝ
  centerY : ℝ
  numStars : ℕ
  numArms : ℕ
  armTightness : ℝ
  armSpread : ℝ
  bulgeFraction : ℝ
  maxRadius : ℝ
  defaultMass : ℝ
  gravityConstant : ℝ
  starImagesLength : ℕ

/-- `bulgeStarsCount = Math.floor(numStars * bulgeFraction)`. -/
def bulgeStarsCount (p : GenParams) : ℕ :=
  (⌊(p.numStars : ℝ) * p.bulgeFraction⌋).toNat

/-- `armStarsCount = numStars - bulgeStarsCount`. -/
def armStarsCount (p : GenParams) : ℕ :=
  p.numStars - bulgeStarsCount p

/-- `armOffsetAngle = (Math.PI * 2) / numArms`. -/
def armOffsetAngle (p : GenParams) : ℝ :=
  (Real.pi * 2) / (p.numArms : ℝ)

/-- The generator's own softening constant (`softening = 5`). -/
def softening : ℝ := 5

/-- `avgBulgeMass = defaultMass * 1.5`. -/
def avgBulgeMass (p : GenParams) : ℝ := p.defaultMass * 1.5

/-- `avgArmMass = defaultMass`. -/
def avgArmMass (p : GenParams) : ℝ := p.defaultMass

/-- `totalBulgeMass = bulgeStarsCount * avgBulgeMass`. -/
def totalBulgeMass (p : GenParams) : ℝ :=
  (bulgeStarsCount p : ℝ) * avgBulgeMass p

/-- `totalArmMass = armStarsCount * avgArmMass`. -/
def totalArmMass (p : GenParams) : ℝ :=
  (armStarsCount p : ℝ) * avgArmMass p

/-- `starsPerArmBase = Math.floor(armStarsCount / numArms)`. -/
def starsPerArmBase (p : GenParams) : ℕ :=
  armStarsCount p / p.numArms

/-- `currentArmAngleIncrement = (Math.PI * 2) / (numStars / numArms) * (armTightness / 15)`
(real divisions, identical for every arm). -/
def currentArmAngleIncrement (p : GenParams) : ℝ :=
  (Real.pi * 2) / ((p.numStars : ℝ) / (p.numArms : ℝ)) * (p.armTightness / 15)

/-- `spiralAngle = effectiveIndex * currentArmAngleIncrement` where
`effectiveIndex = i * ((armStarsCount / numArms) / starsInThisArm)`
(real divisions). -/
def spiralAngleAt (p : GenParams) (starsInThisArm i : ℕ) : ℝ :=
  ((i : ℝ) * (((armStarsCount p : ℝ) / (p.numArms : ℝ)) / (starsInThisArm : ℝ)))
    * currentArmAngleIncrement p

/-- `idealRadius = armTightness * Math.exp(0.1 * spiralAngle)`. -/
def idealRadiusAt (p : GenParams) (starsInThisArm i : ℕ) : ℝ :=
  p.armTightness * Real.exp (0.1 * spiralAngleAt p starsInThisArm i)

/-- One bulge body, consuming the seven random draws starting at stream
index `n` in source order (radius, angle, vx, vy, image index, id, mass). -/
def mkBulgeStar (p : GenParams) (now : ℝ) (σ : ℕ → ℝ) (n : ℕ) : Star :=
  let radius := σ n * p.maxRadius * 0.2
  let angle := σ (n + 1) * Real.pi * 2
  let x := p.centerX + radius * Real.cos angle
  let y := p.centerY + radius * Real.sin angle
  let vx := (σ (n + 2) - 0.5) * 0.1
  let vy := (σ (n + 3) - 0.5) * 0.1
  let randomImageIndex := ⌊σ (n + 4) * (p.starImagesLength : ℝ)⌋
  { id := now + σ (n + 5), x := x, y := y, vx := vx, vy := vy,
    mass := p.defaultMass * (1 + σ (n + 6)), imageIndex := some randomImageIndex }

/-- The bulge loop: `count` iterations, each consuming seven random draws. -/
def bulgeStarsList (p : GenParams) (now : ℝ) (σ : ℕ → ℝ) : ℕ → ℕ → List Star
  | 0, _ => []
  | count + 1, n => mkBulgeStar p now σ n :: bulgeStarsList p now σ count (n + 7)

/-- One arm body for loop index `i`, consuming the four random draws starting
at stream index `n` in source order (spread radius, image index, id, mass). -/
def mkArmStar (p : GenParams) (now : ℝ) (σ : ℕ → ℝ) (baseArmAngle : ℝ)
    (starsInThisArm i n : ℕ) : Star :=
  let spiralAngle := spiralAngleAt p starsInThisArm i
  let idealRadius := idealRadiusAt p starsInThisArm i
  let spreadAngle := baseArmAngle + spiralAngle
  let spreadRadius := idealRadius + (σ n - 0.5) * p.armSpread * idealRadius
  let x := p.centerX + spreadRadius * Real.cos spreadAngle
  let y := p.centerY + spreadRadius * Real.sin spreadAngle
  let enclosedArmMass := totalArmMass p * (idealRadius / p.maxRadius)
  let enclosedMass := totalBulgeMass p + enclosedArmMass
  let radiusForCalc := max 1 idealRadius
  let orbitalSpeed := Real.sqrt (p.gravityConstant * enclosedMass / (radiusForCalc + softening))
  let relX := idealRadius * Real.cos spreadAngle
  let relY := idealRadius * Real.sin spreadAngle
  let norm :=
    if Real.sqrt (relX * relX + relY * relY) = 0 then 1
    else Real.sqrt (relX * relX + relY * relY)
  let vx := orbitalSpeed * (-relY / norm)
  let vy := orbitalSpeed * (relX / norm)
  let randomImageIndex := ⌊σ (n + 1) * (p.starImagesLength : ℝ)⌋
  { id := now + σ (n + 2), x := x, y := y, vx := vx, vy := vy,
    mass := p.defaultMass * (0.8 + σ (n + 3) * 0.4), imageIndex := some randomImageIndex }

/-- The inner arm loop, iterating `count` times starting at loop index `i`
with random-stream position `n`; a body whose ideal radius exceeds
`maxRadius` is skipped (`continue`) and consumes no random draws.  Returns
the bodies pushed together with the final stream position. -/
def armInnerLoop (p : GenParams) (now : ℝ) (σ : ℕ → ℝ) (baseArmAngle : ℝ)
    (starsInThisArm : ℕ) : ℕ → ℕ → ℕ → List Star × ℕ
  | _, 0, n => ([], n)
  | i, count + 1, n =>
    if idealRadiusAt p starsInThisArm i > p.maxRadius then
      armInnerLoop p now σ baseArmAngle starsInThisArm (i + 1) count n
    else
      let star := mkArmStar p now σ baseArmAngle starsInThisArm i n
      let rest := armInnerLoop p now σ baseArmAngle starsInThisArm (i + 1) count (n + 4)
      (star :: rest.1, rest.2)

/-- The outer arm loop over `count` remaining arms, with current arm index
`arm`, current `remainingArmStars` value and random-stream position `n`.
Each arm iterates `starsPerArmBase` times plus one extra while a remainder
is left, which is then decremented. -/
def armOuterLoop (p : GenParams) (now : ℝ) (σ : ℕ → ℝ) : ℕ → ℕ → ℕ → ℕ → List Star
  | _, 0, _, _ => []
  | arm, count + 1, remaining, n =>
    let baseArmAngle := (arm : ℝ) * armOffsetAngle p
    let starsInThisArm := starsPerArmBase p + (if 0 < remaining then 1 else 0)
    let inner := armInnerLoop p now σ baseArmAngle starsInThisArm 0 starsInThisArm n
    inner.1 ++ armOuterLoop p now σ (arm + 1) count (remaining - 1) inner.2

/-- `generateSpiralGalaxyStars`: the bulge loop followed by the arm loops,
with the arm loops starting after the bulge's `7 * bulgeStarsCount` random
draws. -/
def generateSpiralGalaxyStars (p : GenParams) (now : ℝ) (σ : ℕ → ℝ) : List Star :=
  bulgeStarsList p now σ (bulgeStarsCount p) 0 ++
    armOuterLoop p now σ 0 p.numArms (armStarsCount p % p.numArms) (7 * bulgeStarsCount p)

/-- The number of loop indices allotted to arm `k` (0-based): the base share
plus one extra for the first `armStarsCount % numArms` arms. -/
def starsInArm (p : GenParams) (k : ℕ) : ℕ :=
  starsPerArmBase p + (if k < armStarsCount p % p.numArms then 1 else 0)

lemma bulgeStarsList_length (p : GenParams) (now : ℝ) (σ : ℕ → ℝ) :
    ∀ count n, (bulgeStarsList p now σ count n).length = count := by
  intro count
  induction count with
  | zero => intro n; rfl
  | succ count ih => intro n; simp [bulgeStarsList, ih]

lemma armInnerLoop_length_le (p : GenParams) (now : ℝ) (σ : ℕ → ℝ) (b : ℝ) (s : ℕ) :
    ∀ count i n, (armInnerLoop p now σ b s i count n).1.length ≤ count := by
  intro count
  induction count with
  | zero => intro i n; simp [armInnerLoop]
  | succ count ih =>
    intro i n
    by_cases h : idealRadiusAt p s i > p.maxRadius
    · simp only [armInnerLoop, if_pos h]
      exact le_trans (ih (i + 1) n) (Nat.le_succ count)
    · simp only [armInnerLoop, if_neg h, List.length_cons]
      exact Nat.succ_le_succ (ih (i + 1) (n + 4))

lemma armOuterLoop_length_le (p : GenParams) (now : ℝ) (σ : ℕ → ℝ) :
    ∀ count arm r n,
      (armOuterLoop p now σ arm count r n).length ≤ count * starsPerArmBase p + r := by
  intro count
  induction count with
  | zero => intro arm r n; simp [armOuterLoop]
  | succ count ih =>
    intro arm r n
    by_cases hr : 0 < r
    · simp only [armOuterLoop, List.length_append, if_pos hr, Nat.succ_mul]
      have h1 := armInnerLoop_length_le p now σ ((arm : ℝ) * armOffsetAngle p)
        (starsPerArmBase p + 1) (starsPerArmBase p + 1) 0 n
      have h2 := ih (arm + 1) (r - 1)
        ((armInnerLoop p now σ ((arm : ℝ) * armOffsetAngle p)
          (starsPerArmBase p + 1) 0 (starsPerArmBase p + 1) n).2)
      omega
    · simp only [armOuterLoop, List.length_append, if_neg hr, Nat.add_zero, Nat.succ_mul]
      have h1 := armInnerLoop_length_le p now σ ((arm : ℝ) * armOffsetAngle p)
        (starsPerArmBase p) (starsPerArmBase p) 0 n
      have h2 := ih (arm + 1) (r - 1)
        ((armInnerLoop p now σ ((arm : ℝ) * armOffsetAngle p)
          (starsPerArmBase p) 0 (starsPerArmBase p) n).2)
      omega

lemma generate_length_split (p : GenParams) (now : ℝ) (σ : ℕ → ℝ) :
    (generateSpiralGalaxyStars p now σ).length
      = bulgeStarsCount p
        + (armOuterLoop p now σ 0 p.numArms (armStarsCount p % p.numArms)
            (7 * bulgeStarsCount p)).length := by
  unfold generateSpiralGalaxyStars
  rw [List.length_append, bulgeStarsList_length]

lemma generate_length_le (p : GenParams) (now : ℝ) (σ : ℕ → ℝ) :
    (generateSpiralGalaxyStars p now σ).length ≤ bulgeStarsCount p + armStarsCount p := by
  rw [generate_length_split]
  have h1 := armOuterLoop_length_le p now σ p.numArms 0 (armStarsCount p % p.numArms)
    (7 * bulgeStarsCount p)
  have h2 : p.numArms * (armStarsCount p / p.numArms) + armStarsCount p % p.numArms
      = armStarsCount p := Nat.div_add_mod (armStarsCount p) p.numArms
  unfold starsPerArmBase at h1
  omega

lemma armInnerLoop_length_eq (p : GenParams) (now : ℝ) (σ : ℕ → ℝ) (b : ℝ) (s : ℕ) :
    ∀ count i n, (∀ j, i ≤ j → j < i + count → idealRadiusAt p s j ≤ p.maxRadius) →
      (armInnerLoop p now σ b s i count n).1.length = count := by
  intro count
  induction count with
  | zero => intro i n h; simp [armInnerLoop]
  | succ count ih =>
    intro i n h
    have hc : ¬ idealRadiusAt p s i > p.maxRadius := not_lt.mpr (h i le_rfl (by omega))
    simp only [armInnerLoop, if_neg hc, List.length_cons]
    rw [ih (i + 1) (n + 4) fun j hj1 hj2 => h j (by omega) (by omega)]

lemma armOuterLoop_length_eq (p : GenParams) (now : ℝ) (σ : ℕ → ℝ) :
    ∀ count arm r n,
      (∀ k, k < count → ∀ i, i < starsPerArmBase p + (if k < r then 1 else 0) →
          idealRadiusAt p (starsPerArmBase p + (if k < r then 1 else 0)) i ≤ p.maxRadius) →
      (armOuterLoop p now σ arm count r n).length
        = count * starsPerArmBase p + min r count := by
  intro count
  induction count with
  | zero => intro arm r n h; simp [armOuterLoop]
  | succ count ih =>
    intro arm r n h
    have hshift : ∀ k : ℕ, (if k < r - 1 then 1 else 0) = (if k + 1 < r then 1 else 0) := by
      intro k
      by_cases hk : k < r - 1
      · rw [if_pos hk, if_pos (by omega)]
      · rw [if_neg hk, if_neg (by omega)]
    by_cases hr : 0 < r
    · simp only [armOuterLoop, List.length_append, if_pos hr, Nat.succ_mul]
      have h0 := h 0 (Nat.succ_pos count)
      simp only [if_pos hr] at h0
      have e1 : (armInnerLoop p now σ ((arm : ℝ) * armOffsetAngle p)
          (starsPerArmBase p + 1) 0 (starsPerArmBase p + 1) n).1.length
            = starsPerArmBase p + 1 :=
        armInnerLoop_length_eq p now σ _ _ _ _ _ fun j _ hj2 => h0 j (by omega)
      have e2 := ih (arm + 1) (r - 1)
        ((armInnerLoop p now σ ((arm : ℝ) * armOffsetAngle p)
          (starsPerArmBase p + 1) 0 (starsPerArmBase p + 1) n).2)
        (fun k hk => by rw [hshift k]; exact h (k + 1) (by omega))
      rw [e1, e2]
      omega
    · simp only [armOuterLoop, List.length_append, if_neg hr, Nat.add_zero, Nat.succ_mul]
      have h0 := h 0 (Nat.succ_pos count)
      simp only [if_neg hr, Nat.add_zero] at h0
      have e1 : (armInnerLoop p now σ ((arm : ℝ) * armOffsetAngle p)
          (starsPerArmBase p) 0 (starsPerArmBase p) n).1.length = starsPerArmBase p :=
        armInnerLoop_length_eq p now σ _ _ _ _ _ fun j _ hj2 => h0 j (by omega)
      have e2 := ih (arm + 1) (r - 1)
        ((armInnerLoop p now σ ((arm : ℝ) * armOffsetAngle p)
          (starsPerArmBase p) 0 (starsPerArmBase p) n).2)
        (fun k hk => by rw [hshift k]; exact h (k + 1) (by omega))
      rw [e1, e2]
      omega

lemma sum_range_ite_lt (r : ℕ) : ∀ A : ℕ,
    ((Finset.range A).sum fun k => if k < r then 1 else 0) = min r A := by
  intro A
  induction A with
  | zero => simp
  | succ A ih =>
    rw [Finset.sum_range_succ, ih]
    by_cases h : A < r
    · rw [if_pos h]; omega
    · rw [if_neg h]; omega

lemma sum_starsInArm (p : GenParams) (h : 0 < p.numArms) :
    ((Finset.range p.numArms).sum fun k => starsInArm p k) = armStarsCount p := by
  unfold starsInArm
  rw [Finset.sum_add_distrib, Finset.sum_const, Finset.card_range, smul_eq_mul,
    sum_range_ite_lt]
  have h1 : armStarsCount p % p.numArms < p.numArms := Nat.mod_lt _ h
  have h2 : p.numArms * (armStarsCount p / p.numArms) + armStarsCount p % p.numArms
      = armStarsCount p := Nat.div_add_mod (armStarsCount p) p.numArms
  unfold starsPerArmBase
  omega

lemma generate_length_eq_of_no_skip (p : GenParams) (now : ℝ) (σ : ℕ → ℝ)
    (hA : 0 < p.numArms)
    (h : ∀ k, k < p.numArms → ∀ i, i < starsInArm p k →
        idealRadiusAt p (starsInArm p k) i ≤ p.maxRadius) :
    (generateSpiralGalaxyStars p now σ).length = bulgeStarsCount p + armStarsCount p := by
  rw [generate_length_split]
  unfold starsInArm at h
  rw [armOuterLoop_length_eq p now σ p.numArms 0 (armStarsCount p % p.numArms)
    (7 * bulgeStarsCount p) h]
  have h1 : armStarsCount p % p.numArms < p.numArms := Nat.mod_lt _ hA
  have h2 : p.numArms * (armStarsCount p / p.numArms) + armStarsCount p % p.numArms
      = armStarsCount p := Nat.div_add_mod (armStarsCount p) p.numArms
  unfold starsPerArmBase
  omega

lemma armInnerLoop_length_mono (p q : GenParams) (now now' : ℝ) (σ σ' : ℕ → ℝ)
    (b b' : ℝ) (s : ℕ)
    (hI : ∀ i, idealRadiusAt p s i = idealRadiusAt q s i)
    (hR : p.maxRadius ≤ q.maxRadius) :
    ∀ count i n n',
      (armInnerLoop p now σ b s i count n).1.length
        ≤ (armInnerLoop q now' σ' b' s i count n').1.length := by
  intro count
  induction count with
  | zero => intro i n n'; simp [armInnerLoop]
  | succ count ih =>
    intro i n n'
    by_cases hq : idealRadiusAt q s i > q.maxRadius
    · have hp : idealRadiusAt p s i > p.maxRadius := by
        rw [hI i]
        exact lt_of_le_of_lt hR hq
      simp only [armInnerLoop, if_pos hp, if_pos hq]
      exact ih (i + 1) n n'
    · by_cases hp : idealRadiusAt p s i > p.maxRadius
      · simp only [armInnerLoop, if_pos hp, if_neg hq, List.length_cons]
        exact le_trans (ih (i + 1) n (n' + 4)) (Nat.le_succ _)
      · simp only [armInnerLoop, if_neg hp, if_neg hq, List.length_cons]
        exact Nat.succ_le_succ (ih (i + 1) (n + 4) (n' + 4))

lemma armOuterLoop_length_mono (p q : GenParams) (now now' : ℝ) (σ σ' : ℕ → ℝ)
    (hI : ∀ s i, idealRadiusAt p s i = idealRadiusAt q s i)
    (hR : p.maxRadius ≤ q.maxRadius)
    (hbase : starsPerArmBase p = starsPerArmBase q) :
    ∀ count arm r n n',
      (armOuterLoop p now σ arm count r n).length
        ≤ (armOuterLoop q now' σ' arm count r n').length := by
  intro count
  induction count with
  | zero => intro arm r n n'; simp [armOuterLoop]
  | succ count ih =>
    intro arm r n n'
    simp only [armOuterLoop, List.length_append]
    rw [← hbase]
    exact Nat.add_le_add
      (armInnerLoop_length_mono p q now now' σ σ' _ _ _ (fun i => hI _ i) hR _ 0 n n')
      (ih (arm + 1) (r - 1) _ _)

lemma generate_length_mono (p : GenParams) (now : ℝ) (σ : ℕ → ℝ) (R : ℝ)
    (hR : p.maxRadius ≤ R) :
    (generateSpiralGalaxyStars p now σ).length
      ≤ (generateSpiralGalaxyStars { p with maxRadius := R } now σ).length := by
  rw [generate_length_split, generate_length_split]
  exact Nat.add_le_add (le_of_eq rfl)
    (armOuterLoop_length_mono p { p with maxRadius := R } now now σ σ
      (fun s i => rfl) hR rfl p.numArms 0 (armStarsCount p % p.numArms) _ _)

/-- C3 counterexample: with one body, one arm, `armTightness = 2` and
`maxRadius = 1`, the single arm body's ideal radius `2` exceeds `maxRadius`,
is skipped, and the returned length `0` differs from
`bulgeStarsCount + armStarsCount = 1`. -/
theorem galaxy_nominal_length_counterexample :
    (generateSpiralGalaxyStars ⟨0, 0, 1, 1, 2, 0, 0, 1, 1, 1, 5⟩ 0 fun _ => 0).length
      ≠ bulgeStarsCount ⟨0, 0, 1, 1, 2, 0, 0, 1, 1, 1, 5⟩
        + armStarsCount ⟨0, 0, 1, 1, 2, 0, 0, 1, 1, 1, 5⟩ := by
  have hb : bulgeStarsCount (⟨0, 0, 1, 1, 2, 0, 0, 1, 1, 1, 5⟩ : GenParams) = 0 := by
    simp [bulgeStarsCount]
  have ha : armStarsCount (⟨0, 0, 1, 1, 2, 0, 0, 1, 1, 1, 5⟩ : GenParams) = 1 := by
    simp [armStarsCount, hb]
  have hbase : starsPerArmBase (⟨0, 0, 1, 1, 2, 0, 0, 1, 1, 1, 5⟩ : GenParams) = 1 := by
    simp [starsPerArmBase, ha]
  have hideal : (1 : ℝ) < idealRadiusAt (⟨0, 0, 1, 1, 2, 0, 0, 1, 1, 1, 5⟩ : GenParams) 1 0 := by
    simp [idealRadiusAt, spiralAngleAt, Real.exp_zero]
  rw [generate_length_split]
  have hr : armStarsCount (⟨0, 0, 1, 1, 2, 0, 0, 1, 1, 1, 5⟩ : GenParams)
      % (⟨0, 0, 1, 1, 2, 0, 0, 1, 1, 1, 5⟩ : GenParams).numArms = 0 := by
    rw [ha]
    rfl
  have hn7 : 7 * bulgeStarsCount (⟨0, 0, 1, 1, 2, 0, 0, 1, 1, 1, 5⟩ : GenParams) = 0 := by
    rw [hb]
  rw [hr, hn7, hb, ha]
  have hcount : (⟨0, 0, 1, 1, 2, 0, 0, 1, 1, 1, 5⟩ : GenParams).numArms = 1 := rfl
  rw [hcount]
  have hlen : (armOuterLoop (⟨0, 0, 1, 1, 2, 0, 0, 1, 1, 1, 5⟩ : GenParams) 0 (fun _ => 0)
      0 1 0 0).length = 0 := by
    simp [armOuterLoop, armInnerLoop, hbase, hideal]
  rw [hlen]
  omega

/-- C3 (amended): the returned length is `bulgeStarsCount` plus the number of
arm bodies actually pushed, which is at most `armStarsCount`; the nominal
allotment `starsInArm` divides `armStarsCount` as evenly as possible (base
share plus one extra for the first `armStarsCount % numArms` arms, summing
to `armStarsCount`); and when no allotted arm body's ideal radius exceeds
`maxRadius`, the length is exactly `bulgeStarsCount + armStarsCount`. -/
theorem galaxy_length_partition :
    (∀ (p : GenParams) (now : ℝ) (σ : ℕ → ℝ),
        (generateSpiralGalaxyStars p now σ).length
            = bulgeStarsCount p
              + (armOuterLoop p now σ 0 p.numArms (armStarsCount p % p.numArms)
                  (7 * bulgeStarsCount p)).length ∧
          (generateSpiralGalaxyStars p now σ).length
            ≤ bulgeStarsCount p + armStarsCount p) ∧
    (∀ p : GenParams, 0 < p.numArms →
        ((Finset.range p.numArms).sum fun k => starsInArm p k) = armStarsCount p) ∧
    (∀ (p : GenParams) (now : ℝ) (σ : ℕ → ℝ), 0 < p.numArms →
        (∀ k, k < p.numArms → ∀ i, i < starsInArm p k →
            idealRadiusAt p (starsInArm p k) i ≤ p.maxRadius) →
        (generateSpiralGalaxyStars p now σ).length
          = bulgeStarsCount p + armStarsCount p) :=
  ⟨fun p now σ => ⟨generate_length_split p now σ, generate_length_le p now σ⟩,
   fun p h => sum_starsInArm p h,
   fun p now σ hA h => generate_length_eq_of_no_skip p now σ hA h⟩

/-- C3 witness: a one-arm, one-body configuration whose ideal radius `1`
stays within `maxRadius = 10`, so the full nominal length is realized. -/
theorem galaxy_length_partition_witness :
    (generateSpiralGalaxyStars ⟨0, 0, 1, 1, 1, 0, 0, 10, 1, 1, 5⟩ 0 fun _ => 0).length
      = bulgeStarsCount ⟨0, 0, 1, 1, 1, 0, 0, 10, 1, 1, 5⟩
        + armStarsCount ⟨0, 0, 1, 1, 1, 0, 0, 10, 1, 1, 5⟩ := by
  have hb : bulgeStarsCount (⟨0, 0, 1, 1, 1, 0, 0, 10, 1, 1, 5⟩ : GenParams) = 0 := by
    simp [bulgeStarsCount]
  have ha : armStarsCount (⟨0, 0, 1, 1, 1, 0, 0, 10, 1, 1, 5⟩ : GenParams) = 1 := by
    simp [armStarsCount, hb]
  have hs : ∀ k, starsInArm (⟨0, 0, 1, 1, 1, 0, 0, 10, 1, 1, 5⟩ : GenParams) k = 1 := by
    intro k
    simp [starsInArm, starsPerArmBase, ha]
  apply galaxy_length_partition.2.2 _ 0 (fun _ => 0) Nat.one_pos
  intro k hk i hi
  rw [hs k] at hi
  have hi0 : i = 0 := by omega
  subst hi0
  rw [hs k]
  simp [idealRadiusAt, spiralAngleAt, Real.exp_zero]

lemma bulgeStarsCount_100_012 (p : GenParams)
    (hn : p.numStars = 100) (hf : p.bulgeFraction = 0.12) :
    bulgeStarsCount p = 12 := by
  unfold bulgeStarsCount
  rw [hn, hf]
  rw [show ((100 : ℕ) : ℝ) * (0.12 : ℝ) = ((12 : ℕ) : ℝ) by norm_num]
  rw [Int.floor_natCast]
  rfl

/-- C9: with `totalCount = 100` and `bulgeFraction = 0.12`, exactly 12 bulge
bodies are generated; with `bulgeFraction ≤ 1` the returned length never
exceeds `totalCount`; and with every other parameter and all random draws
held fixed the returned length is monotone non-decreasing in `maxRadius`. -/
theorem galaxy_count_properties :
    (∀ (p : GenParams) (now : ℝ) (σ : ℕ → ℝ), p.numStars = 100 → p.bulgeFraction = 0.12 →
        bulgeStarsCount p = 12 ∧
          (bulgeStarsList p now σ (bulgeStarsCount p) 0).length = 12) ∧
    (∀ (p : GenParams) (now : ℝ) (σ : ℕ → ℝ), p.bulgeFraction ≤ 1 →
        (generateSpiralGalaxyStars p now σ).length ≤ p.numStars) ∧
    (∀ (p : GenParams) (now : ℝ) (σ : ℕ → ℝ) (R : ℝ), p.maxRadius ≤ R →
        (generateSpiralGalaxyStars p now σ).length
          ≤ (generateSpiralGalaxyStars { p with maxRadius := R } now σ).length) := by
  refine ⟨?_, ?_, ?_⟩
  · intro p now σ hn hf
    have h12 := bulgeStarsCount_100_012 p hn hf
    exact ⟨h12, by rw [bulgeStarsList_length, h12]⟩
  · intro p now σ hf
    have h1 := generate_length_le p now σ
    have hb : bulgeStarsCount p ≤ p.numStars := by
      unfold bulgeStarsCount
      have hle : ⌊(p.numStars : ℝ) * p.bulgeFraction⌋ ≤ ((p.numStars : ℕ) : ℤ) := by
        calc ⌊(p.numStars : ℝ) * p.bulgeFraction⌋
            ≤ ⌊((p.numStars : ℕ) : ℝ)⌋ :=
              Int.floor_le_floor (mul_le_of_le_one_right (Nat.cast_nonneg _) hf)
          _ = ((p.numStars : ℕ) : ℤ) := Int.floor_natCast _
      exact Int.toNat_le.mpr hle
    unfold armStarsCount at h1
    omega
  · intro p now σ R hR
    exact generate_length_mono p now σ R hR

/-- C9 witness: the concrete 100-body, 0.12-bulge-fraction configuration has
12 bulge bodies, a total length of at most 100, and a length that does not
decrease when `maxRadius` grows from 400 to 500. -/
theorem galaxy_count_properties_witness :
    bulgeStarsCount ⟨0, 0, 100, 5, 18, 0.25, 0.12, 400, 10, 1, 5⟩ = 12 ∧
    (generateSpiralGalaxyStars ⟨0, 0, 100, 5, 18, 0.25, 0.12, 400, 10, 1, 5⟩ 0
        fun _ => 0).length ≤ 100 ∧
    (generateSpiralGalaxyStars ⟨0, 0, 100, 5, 18, 0.25, 0.12, 400, 10, 1, 5⟩ 0
        fun _ => 0).length
      ≤ (generateSpiralGalaxyStars ⟨0, 0, 100, 5, 18, 0.25, 0.12, 500, 10, 1, 5⟩ 0
          fun _ => 0).length := by
  refine ⟨(galaxy_count_properties.1 _ 0 (fun _ => 0) rfl rfl).1,
    galaxy_count_properties.2.1 _ 0 (fun _ => 0) (by norm_num), ?_⟩
  exact galaxy_count_properties.2.2 ⟨0, 0, 100, 5, 18, 0.25, 0.12, 400, 10, 1, 5⟩ 0
    (fun _ => 0) 500 (by norm_num)

end GalaxySim
